import Mathlib

/-!
Shallow embedding of the playback/run-management core of `visualize.py`
(class `UR5Visualizer`).  Joint vectors and timestamps are modelled as
rationals; emitted render directives and sleep calls are recorded as an
event trace inside the state.  Operations that can raise a Python
`IndexError` (indexing an empty trajectory) return a `PyResult` whose
`exn` constructor carries the state as mutated up to the raise point.
-/

/-- A joint configuration / torque / error row: a vector of rationals. -/
abbrev Config : Type := List ℚ

/-- Observable effects of the core: pose directives (`robot.update_cfg`),
plot-refresh directives (`update_plots`) and sleeps (`time.sleep`). -/
inductive Event where
  | pose (c : Config)
  | plots (name : String)
  | wait (d : ℚ)
  deriving DecidableEq

/-- One stored run: the four parallel sequences passed to `add_run`. -/
structure Run where
  traj : List Config
  torques : List Config
  errors : List Config
  times : List ℚ
  deriving DecidableEq

/-- The mutable fields of `UR5Visualizer` that the playback core touches.
`active` bundles `self.trajectory/torques/errors/times`, which the source
always assigns together (`None` initially, a run tuple after a switch).
`emitted` is the trace of directives and sleeps issued so far. -/
structure VizState where
  runs : List (String × Run)
  active : Option Run
  current_idx : Nat
  dt : ℚ
  speed : ℚ
  is_playing : Bool
  play_btn : String
  emitted : List Event
  deriving DecidableEq

/-- Result of an operation that may raise: `exn` carries the state as
mutated before the Python exception was raised. -/
inductive PyResult (α : Type) where
  | ok (s : α)
  | exn (s : α)
  deriving DecidableEq

/-- The state carried by either constructor. -/
def PyResult.state : PyResult VizState → VizState
  | .ok s => s
  | .exn s => s

/-- Whether the operation raised a Python exception. -/
def PyResult.raised : PyResult VizState → Bool
  | .ok _ => false
  | .exn _ => true

/-- `__init__`: no runs, no active run, cursor 0, `dt = 0.01`, speed 1,
not playing. -/
def initState : VizState :=
  { runs := [], active := none, current_idx := 0, dt := 1/100,
    speed := 1, is_playing := false, play_btn := "Play", emitted := [] }

/-- Python `dict` lookup `self.runs[name]` guarded by `name in self.runs`. -/
def lookupRun (runs : List (String × Run)) (name : String) : Option Run :=
  (runs.find? (fun p => p.1 = name)).map (fun p => p.2)

/-- Python `dict` assignment `self.runs[name] = ...`: replacing an
existing key keeps its position, a new key is appended. -/
def insertRun (runs : List (String × Run)) (name : String) (r : Run) :
    List (String × Run) :=
  if runs.any (fun p => p.1 = name) then
    runs.map (fun p => if p.1 = name then (name, r) else p)
  else
    runs ++ [(name, r)]

/-- `switch_run(name)`: no-op when the name is unknown; otherwise install
the run tuple, recompute `dt` (`times[1] - times[0]` when `len(times) > 1`
else `0.01`), reset the cursor to 0, emit the pose for sample 0 and the
plot-refresh directive.  Indexing `traj[0]` on an empty trajectory raises,
after the state was already mutated. -/
def switch_run (s : VizState) (name : String) : PyResult VizState :=
  match lookupRun s.runs name with
  | none => .ok s
  | some r =>
    let s1 : VizState :=
      { s with active := some r,
               dt := if r.times.length > 1 then r.times[1]! - r.times[0]! else 1/100,
               current_idx := 0 }
    match r.traj with
    | [] => .exn s1
    | c :: _ => .ok { s1 with emitted := s1.emitted ++ [.pose c, .plots name] }

/-- `add_run(name, ...)`: store the run, then, when the store now holds
exactly one run, select it via `switch_run`. -/
def add_run (s : VizState) (name : String) (r : Run) : PyResult VizState :=
  let s1 : VizState := { s with runs := insertRun s.runs name r }
  if s1.runs.length = 1 then switch_run s1 name else .ok s1

/-- The Python clamp `max(0, min(idx, len(traj) - 1))`, on integers. -/
def clampIdx (k : Int) (n : Nat) : Int :=
  max 0 (min k ((n : Int) - 1))

/-- `seek(idx)`: only acts when a run is active and playback is stopped;
clamps the index, assigns the cursor, then emits the pose.  With an empty
active trajectory the indexing raises after the cursor was assigned. -/
def seek (s : VizState) (k : Int) : PyResult VizState :=
  match s.active with
  | none => .ok s
  | some r =>
    if s.is_playing then .ok s
    else
      let idx : Nat := (clampIdx k r.traj.length).toNat
      let s1 : VizState := { s with current_idx := idx }
      match r.traj[idx]? with
      | none => .exn s1
      | some c => .ok { s1 with emitted := s1.emitted ++ [.pose c] }

/-- `toggle()`: flip `is_playing` and relabel the button. -/
def toggle (s : VizState) : VizState :=
  let p := !s.is_playing
  { s with is_playing := p, play_btn := if p then "Pause" else "Play" }

/-- `restart()`: cursor to 0, then emit sample 0 when a run is active
(raises on an empty active trajectory). -/
def restart (s : VizState) : PyResult VizState :=
  let s1 : VizState := { s with current_idx := 0 }
  match s1.active with
  | none => .ok s1
  | some r =>
    match r.traj[0]? with
    | none => .exn s1
    | some c => .ok { s1 with emitted := s1.emitted ++ [.pose c] }

/-- `save(out)`: skipped (no output) when no run is active, else the
exported data of the active run. -/
def save (s : VizState) : Option (List Config × List Config × List Config × List ℚ) :=
  s.active.map (fun r => (r.traj, r.torques, r.errors, r.times))

/-- One iteration of the `while True` scheduling loop in `run()`:
when playing with an active run and `current_idx < len(trajectory)`,
sleep `dt / speed`, emit the pose at the current cursor, increment the
cursor, sleep `dt / speed` again; when playing but exhausted, stop;
in every case end with the fixed `0.01` poll sleep. -/
def tick (s : VizState) : VizState :=
  let s1 : VizState :=
    match s.is_playing, s.active with
    | true, some r =>
      if h : s.current_idx < r.traj.length then
        { s with
          emitted := s.emitted ++
            [.wait (s.dt / s.speed), .pose (r.traj.get ⟨s.current_idx, h⟩),
             .wait (s.dt / s.speed)],
          current_idx := s.current_idx + 1 }
      else
        { s with is_playing := false, play_btn := "Play" }
    | _, _ => s
  { s1 with emitted := s1.emitted ++ [.wait (1/100)] }

/-! Concrete sample data used by counterexamples and witnesses. -/

/-- A constant 6-joint configuration row. -/
def v0 : Config := [0, 0, 0, 0, 0, 0]

/-- A constant 6-joint configuration row. -/
def v1 : Config := [1, 1, 1, 1, 1, 1]

/-- A constant 6-joint configuration row. -/
def v2 : Config := [2, 2, 2, 2, 2, 2]

/-- A two-component error row. -/
def e0 : Config := [0, 0]

/-- A run with three samples and timestamps `[0, 1, 2]`. -/
def runABC : Run :=
  { traj := [v0, v1, v2], torques := [v0, v0, v0],
    errors := [e0, e0, e0], times := [0, 1, 2] }

/-- A run with two samples and timestamps `[0, 1]`. -/
def runTwo : Run :=
  { traj := [v0, v1], torques := [v0, v0], errors := [e0, e0], times := [0, 1] }

/-- A run with a single sample. -/
def runOne : Run :=
  { traj := [v0], torques := [v0], errors := [e0], times := [5] }

/-- A run with no samples at all (N = 0). -/
def runEmpty : Run :=
  { traj := [], torques := [], errors := [], times := [] }

/-- A state that is Playing the stored run `"A"` (= `runTwo`) at cursor 1. -/
def c1state : VizState :=
  { runs := [("A", runTwo)], active := some runTwo, current_idx := 1,
    dt := 1, speed := 1, is_playing := true, play_btn := "Pause", emitted := [] }

/-- A state Playing the stored run `"A"` (= `runABC`, N = 3) at cursor N - 2 = 1. -/
def c2state : VizState :=
  { runs := [("A", runABC)], active := some runABC, current_idx := 1,
    dt := 1, speed := 1, is_playing := true, play_btn := "Pause", emitted := [] }

/-- A state Playing the one-sample run `runOne` at cursor 0. -/
def c3state : VizState :=
  { runs := [("A", runOne)], active := some runOne, current_idx := 0,
    dt := 1, speed := 1, is_playing := true, play_btn := "Pause", emitted := [] }

/-- A store holding exactly one run, idle at cursor 1. -/
def c6pre : VizState :=
  { runs := [("A", runABC)], active := some runABC, current_idx := 1,
    dt := 1, speed := 1, is_playing := false, play_btn := "Play", emitted := [] }

/-- A state whose active run has an empty trajectory (N = 0), not playing. -/
def c8state : VizState :=
  { runs := [("E", runEmpty)], active := some runEmpty, current_idx := 0,
    dt := 1, speed := 1, is_playing := false, play_btn := "Play", emitted := [] }

/-- An idle state with `runABC` active at cursor 0. -/
def c8idle : VizState :=
  { runs := [("A", runABC)], active := some runABC, current_idx := 0,
    dt := 1, speed := 1, is_playing := false, play_btn := "Play", emitted := [] }

/-- A store holding the single-sample run under `"B"`, nothing active. -/
def oneStore : VizState :=
  { runs := [("B", runOne)], active := none, current_idx := 0,
    dt := 1, speed := 1, is_playing := false, play_btn := "Play", emitted := [] }

/-! Helper lemmas about one scheduling-loop iteration. -/

/-- When Playing with samples left, a tick appends the double-wait step
trace and increments the cursor; nothing else changes. -/
theorem tick_advance (s : VizState) (r : Run) (hp : s.is_playing = true)
    (ha : s.active = some r) (h : s.current_idx < r.traj.length) :
    tick s = { s with
      emitted := s.emitted ++
        [Event.wait (s.dt / s.speed), Event.pose (r.traj.get ⟨s.current_idx, h⟩),
         Event.wait (s.dt / s.speed), Event.wait (1/100)],
      current_idx := s.current_idx + 1 } := by
  simp only [tick, hp, ha]
  simp [h]

/-- When Playing with the sequence exhausted, a tick halts playback and
leaves the cursor where it is. -/
theorem tick_stop (s : VizState) (r : Run) (hp : s.is_playing = true)
    (ha : s.active = some r) (h : ¬ s.current_idx < r.traj.length) :
    tick s = { s with is_playing := false, play_btn := "Play",
                      emitted := s.emitted ++ [Event.wait (1/100)] } := by
  simp only [tick, hp, ha]
  simp [h]

/-- When not playing, a tick only performs the poll sleep. -/
theorem tick_idle (s : VizState) (hp : s.is_playing = false) :
    tick s = { s with emitted := s.emitted ++ [Event.wait (1/100)] } := by
  simp only [tick, hp]

/-- With no active run, a tick only performs the poll sleep. -/
theorem tick_noactive (s : VizState) (ha : s.active = none) :
    tick s = { s with emitted := s.emitted ++ [Event.wait (1/100)] } := by
  rcases hb : s.is_playing with _ | _
  · rw [tick_idle s hb, hb]
  · simp [tick, ha, hb]

/-- Iterating the loop from a non-playing state never moves the cursor,
never restarts playback, and never changes the active run. -/
theorem tick_iterate_idle (m : Nat) (s : VizState) (hp : s.is_playing = false) :
    (tick^[m] s).current_idx = s.current_idx ∧ (tick^[m] s).is_playing = false
      ∧ (tick^[m] s).active = s.active := by
  induction m generalizing s with
  | zero => exact ⟨rfl, hp, rfl⟩
  | succ m ih =>
    rw [Function.iterate_succ_apply]
    have e := tick_idle s hp
    obtain ⟨i1, i2, i3⟩ := ih (tick s) (by rw [e]; exact hp)
    refine ⟨by rw [i1, e], i2, by rw [i3, e]⟩

/-- The Python clamp lands strictly below the length of a nonempty list. -/
theorem clampIdx_lt (k : Int) (n : Nat) (hn : 1 ≤ n) : (clampIdx k n).toNat < n := by
  unfold clampIdx
  omega

/-- With no active run, iterating the scheduling loop leaves the cursor,
the playing flag and the (absent) active run untouched, and the trace
grows only by poll sleeps — never a pose directive. -/
theorem tick_iterate_noactive (m : Nat) (s : VizState) (ha : s.active = none) :
    (tick^[m] s).current_idx = s.current_idx ∧ (tick^[m] s).active = none
      ∧ (tick^[m] s).is_playing = s.is_playing
      ∧ (tick^[m] s).emitted = s.emitted ++ List.replicate m (Event.wait (1/100)) := by
  induction m generalizing s with
  | zero => exact ⟨rfl, ha, rfl, by simp⟩
  | succ m ih =>
    rw [Function.iterate_succ_apply]
    have e := tick_noactive s ha
    obtain ⟨i1, i2, i3, i4⟩ := ih (tick s) (by rw [e]; exact ha)
    refine ⟨by rw [i1, e], i2, by rw [i3, e], ?_⟩
    rw [i4, e]
    simp [List.replicate_succ]

/-- C5: while Playing with cursor < N, one step cycle emits the pose for
the sample at the current cursor, increments the cursor by exactly one,
and is gated by two wait intervals of `dt / speed` each (plus the fixed
poll sleep), with `speed` and `dt` read from the current state, never a
cached value. -/
theorem C5_step_cycle (s : VizState) (r : Run) (hp : s.is_playing = true)
    (ha : s.active = some r) (h : s.current_idx < r.traj.length) :
    (tick s).current_idx = s.current_idx + 1
    ∧ (tick s).emitted = s.emitted ++
        [Event.wait (s.dt / s.speed), Event.pose (r.traj.get ⟨s.current_idx, h⟩),
         Event.wait (s.dt / s.speed), Event.wait (1/100)]
    ∧ (tick s).speed = s.speed ∧ (tick s).dt = s.dt
    ∧ (tick s).is_playing = true := by
  rw [tick_advance s r hp ha h]
  simp [hp]

/-- C5 witness: the step cycle at the concrete Playing state `c2state`. -/
theorem C5_step_cycle_witness :
    (tick c2state).current_idx = c2state.current_idx + 1
    ∧ (tick c2state).emitted = c2state.emitted ++
        [Event.wait (c2state.dt / c2state.speed),
         Event.pose (runABC.traj.get ⟨c2state.current_idx, by decide⟩),
         Event.wait (c2state.dt / c2state.speed), Event.wait (1/100)]
    ∧ (tick c2state).speed = c2state.speed ∧ (tick c2state).dt = c2state.dt
    ∧ (tick c2state).is_playing = true :=
  C5_step_cycle c2state runABC (by decide) (by decide) (by decide)

/-- C7: a `seek(k)` issued while Playing returns the state completely
unchanged (same cursor, same fields, empty directive delta) and raises
no error. -/
theorem C7_seek_during_play (s : VizState) (k : Int) (hp : s.is_playing = true) :
    seek s k = .ok s := by
  rcases ha : s.active with _ | r
  · simp [seek, ha]
  · simp [seek, ha, hp]

/-- C7 witness: seeking while `c1state` is Playing is an exact no-op. -/
theorem C7_seek_during_play_witness : seek c1state 5 = .ok c1state :=
  C7_seek_during_play c1state 5 (by decide)

/-- C9: `switch_run` with a name not present in the run store is a silent
no-op: the very same state is returned, so every field is unchanged, no
directive is emitted, and no error propagates. -/
theorem C9_unknown_name_noop (s : VizState) (name : String)
    (h : lookupRun s.runs name = none) :
    switch_run s name = .ok s := by
  simp [switch_run, h]

/-- C9 witness: selecting an unknown name on the initial state. -/
theorem C9_unknown_name_noop_witness : switch_run initState "ghost" = .ok initState :=
  C9_unknown_name_noop initState "ghost" (by decide)

/-- C10: `toggle` is total in the Empty state — with no active run it
still flips `is_playing` (so the state can be playing with no run),
without raising, and the scheduling loop then never emits a pose
directive or advances the cursor: iterating it any number of times
leaves the cursor alone and appends only poll sleeps. -/
theorem C10_toggle_total_empty (s : VizState) (ha : s.active = none) :
    (toggle s).is_playing = (!s.is_playing)
    ∧ (toggle s).active = none
    ∧ ∀ m : Nat, (tick^[m] s).current_idx = s.current_idx
        ∧ (tick^[m] s).emitted = s.emitted ++ List.replicate m (Event.wait (1/100)) := by
  refine ⟨by simp [toggle], by simp [toggle, ha], fun m => ?_⟩
  obtain ⟨i1, _, _, i4⟩ := tick_iterate_noactive m s ha
  exact ⟨i1, i4⟩

/-- C10 witness: after `toggle` on the initial (empty) state the system
is playing with no run; three loop iterations emit only poll sleeps and
leave the cursor at 0, and a further toggle flips back. -/
theorem C10_toggle_total_empty_witness :
    (toggle (toggle initState)).is_playing = (!(toggle initState).is_playing)
    ∧ (toggle (toggle initState)).active = none
    ∧ (tick^[3] (toggle initState)).current_idx = (toggle initState).current_idx
    ∧ (tick^[3] (toggle initState)).emitted =
        (toggle initState).emitted ++ List.replicate 3 (Event.wait (1/100)) := by
  have h := C10_toggle_total_empty (toggle initState) (by decide)
  exact ⟨h.1, h.2.1, (h.2.2 3).1, (h.2.2 3).2⟩

/-- C1 counterexample: `c1state` is Playing the stored run `"A"`; after
`switch_run "A"` the state is still Playing — the claim's
`isPlaying == false` is violated even though the cursor was reset. -/
theorem C1_counterexample :
    c1state.is_playing = true
    ∧ lookupRun c1state.runs "A" = some runTwo
    ∧ (switch_run c1state "A").state.is_playing = true
    ∧ (switch_run c1state "A").state.current_idx = 0 := by decide

/-- C1 (amended): for every stored run `r` with at least one sample,
`switch_run` from any state resets the cursor to 0 and recomputes `dt`
(`times[1] - times[0]` when the run has more than one timestamp, else the
default `0.01`), but it leaves `isPlaying` exactly as it was — it does
not force a stop. -/
theorem C1_switch_resets (s : VizState) (name : String) (r : Run)
    (hr : lookupRun s.runs name = some r) (ht : r.traj ≠ []) :
    (switch_run s name).raised = false
    ∧ (switch_run s name).state.current_idx = 0
    ∧ (switch_run s name).state.active = some r
    ∧ (switch_run s name).state.is_playing = s.is_playing
    ∧ (switch_run s name).state.dt =
        (if r.times.length > 1 then r.times[1]! - r.times[0]! else 1/100) := by
  rcases hc : r.traj with _ | ⟨c, rest⟩
  · exact absurd hc ht
  · simp [switch_run, hr, hc, PyResult.raised, PyResult.state]

/-- C1 witness: switching to `"A"` while `c1state` is Playing. -/
theorem C1_switch_resets_witness :
    (switch_run c1state "A").raised = false
    ∧ (switch_run c1state "A").state.current_idx = 0
    ∧ (switch_run c1state "A").state.active = some runTwo
    ∧ (switch_run c1state "A").state.is_playing = c1state.is_playing
    ∧ (switch_run c1state "A").state.dt =
        (if runTwo.times.length > 1 then runTwo.times[1]! - runTwo.times[0]! else 1/100) :=
  C1_switch_resets c1state "A" runTwo (by decide) (by decide)

/-- C2 counterexample: `c2state` is Playing `runABC` (N = 3) at cursor
N - 2 = 1; after exactly one step cycle the cursor is 2, not N = 3, and
the state is still Playing — not Idle as the claim requires. -/
theorem C2_counterexample :
    runABC.traj.length = 3
    ∧ c2state.current_idx = runABC.traj.length - 2
    ∧ c2state.is_playing = true
    ∧ (tick c2state).current_idx = 2
    ∧ (tick c2state).is_playing = true := by decide

/-- C2 (amended): starting Playing at cursor N - 2 on a run of length
N ≥ 2, the cursor reaches N after two step cycles (still Playing), the
third loop iteration performs no advancement and transitions to Idle with
`isPlaying == false`, and from then on no iteration moves the cursor or
restarts playback — the cursor stays at N and never wraps to 0. -/
theorem C2_auto_stop (s : VizState) (r : Run) (n : Nat)
    (ha : s.active = some r) (hp : s.is_playing = true)
    (hn : r.traj.length = n) (h2 : 2 ≤ n) (hc : s.current_idx = n - 2) :
    (tick s).current_idx = n - 1 ∧ (tick s).is_playing = true
    ∧ (tick (tick s)).current_idx = n ∧ (tick (tick s)).is_playing = true
    ∧ (tick (tick (tick s))).current_idx = n
    ∧ (tick (tick (tick s))).is_playing = false
    ∧ ∀ m : Nat, (tick^[m] (tick (tick (tick s)))).current_idx = n
        ∧ (tick^[m] (tick (tick (tick s)))).is_playing = false := by
  have h1 : s.current_idx < r.traj.length := by omega
  have e1 := tick_advance s r hp ha h1
  have t1c : (tick s).current_idx = s.current_idx + 1 := by rw [e1]
  have t1p : (tick s).is_playing = true := by rw [e1]; exact hp
  have t1a : (tick s).active = some r := by rw [e1]; exact ha
  have h1b : (tick s).current_idx < r.traj.length := by omega
  have e2 := tick_advance (tick s) r t1p t1a h1b
  have t2c : (tick (tick s)).current_idx = (tick s).current_idx + 1 := by rw [e2]
  have t2p : (tick (tick s)).is_playing = true := by rw [e2]; exact t1p
  have t2a : (tick (tick s)).active = some r := by rw [e2]; exact t1a
  have h2b : ¬ (tick (tick s)).current_idx < r.traj.length := by omega
  have e3 := tick_stop (tick (tick s)) r t2p t2a h2b
  have t3c : (tick (tick (tick s))).current_idx = (tick (tick s)).current_idx := by
    rw [e3]
  have t3p : (tick (tick (tick s))).is_playing = false := by rw [e3]
  refine ⟨by omega, t1p, by omega, t2p, by omega, t3p, fun m => ?_⟩
  obtain ⟨i1, i2, _⟩ := tick_iterate_idle m (tick (tick (tick s))) t3p
  exact ⟨by omega, i2⟩

/-- C2 witness: the amended auto-stop behaviour on the concrete state
`c2state` (N = 3, cursor 1, Playing), including four extra iterations
after the stop. -/
theorem C2_auto_stop_witness :
    (tick c2state).current_idx = 2 ∧ (tick c2state).is_playing = true
    ∧ (tick (tick c2state)).current_idx = 3
    ∧ (tick (tick c2state)).is_playing = true
    ∧ (tick (tick (tick c2state))).current_idx = 3
    ∧ (tick (tick (tick c2state))).is_playing = false
    ∧ (tick^[4] (tick (tick (tick c2state)))).current_idx = 3
    ∧ (tick^[4] (tick (tick (tick c2state)))).is_playing = false := by
  have h := C2_auto_stop c2state runABC 3 (by decide) (by decide) (by decide)
    (by decide) (by decide)
  exact ⟨h.1, h.2.1, h.2.2.1, h.2.2.2.1, h.2.2.2.2.1, h.2.2.2.2.2.1,
    (h.2.2.2.2.2.2 4).1, (h.2.2.2.2.2.2 4).2⟩

/-- Characterization of `seek` on an idle state with a nonempty active
trajectory: clamp, move the cursor, emit the pose at the clamped index. -/
theorem seek_idle (s : VizState) (r : Run) (k : Int)
    (ha : s.active = some r) (hp : s.is_playing = false) (h1 : 1 ≤ r.traj.length) :
    seek s k = .ok { s with
      current_idx := (clampIdx k r.traj.length).toNat,
      emitted := s.emitted ++
        [Event.pose (r.traj.get
          ⟨(clampIdx k r.traj.length).toNat, clampIdx_lt k r.traj.length h1⟩)] } := by
  have hlt := clampIdx_lt k r.traj.length h1
  simp only [seek, ha, hp, Bool.false_eq_true, if_false]
  rw [List.getElem?_eq_getElem hlt]
  simp [List.get_eq_getElem]

/-- C3 counterexample: `c3state` is Playing its one-sample run at cursor
0 ∈ [0, N-1]; one loop iteration moves the cursor to 1, which is outside
[0, N-1] = [0, 0] — the claimed invariant is not preserved by the
scheduling loop. -/
theorem C3_counterexample :
    c3state.active = some runOne
    ∧ c3state.current_idx ≤ runOne.traj.length - 1
    ∧ (tick c3state).active = some runOne
    ∧ (tick c3state).current_idx = 1
    ∧ ¬ (tick c3state).current_idx ≤ runOne.traj.length - 1 := by decide

/-- C3 (amended): the preserved cursor invariant is `cursor ∈ [0, N]`,
not `[0, N-1]`: a scheduling-loop iteration keeps `cursor ≤ N` (and can
reach the auto-stop sentinel N itself), `seek` leaves the cursor ≤ N,
`restart` and a successful `switch_run` reset it to 0, and `toggle`
never moves it. -/
theorem C3_cursor_bound (s : VizState) (r : Run)
    (ha : s.active = some r) (hb : s.current_idx ≤ r.traj.length) :
    (tick s).current_idx ≤ r.traj.length
    ∧ (tick s).active = some r
    ∧ (∀ k : Int, (seek s k).state.current_idx ≤ r.traj.length)
    ∧ (restart s).state.current_idx = 0
    ∧ (toggle s).current_idx = s.current_idx
    ∧ ∀ name : String, (switch_run s name).state.current_idx = 0
        ∨ (switch_run s name).state.current_idx = s.current_idx := by
  refine ⟨?_, ?_, ?_, ?_, by simp [toggle], ?_⟩
  · rcases hp : s.is_playing with _ | _
    · rw [tick_idle s hp]; exact hb
    · by_cases h : s.current_idx < r.traj.length
      · rw [tick_advance s r hp ha h]
        show s.current_idx + 1 ≤ r.traj.length
        omega
      · rw [tick_stop s r hp ha h]; exact hb
  · rcases hp : s.is_playing with _ | _
    · rw [tick_idle s hp]; exact ha
    · by_cases h : s.current_idx < r.traj.length
      · rw [tick_advance s r hp ha h]; exact ha
      · rw [tick_stop s r hp ha h]; exact ha
  · intro k
    have hidx : (clampIdx k r.traj.length).toNat ≤ r.traj.length := by
      unfold clampIdx; omega
    by_cases hp : s.is_playing
    · simp only [seek, ha, hp, if_true, PyResult.state]; exact hb
    · simp only [seek, ha, hp, Bool.false_eq_true, if_false]
      rcases hx : r.traj[(clampIdx k r.traj.length).toNat]? with _ | c <;>
        simp only [PyResult.state] <;> exact hidx
  · simp only [restart, ha]
    rcases hx : r.traj[0]? with _ | c <;> simp only [PyResult.state]
  · intro name
    rcases hr : lookupRun s.runs name with _ | r2
    · right; simp [switch_run, hr, PyResult.state]
    · left
      rcases hc : r2.traj with _ | ⟨c, rest⟩ <;>
        simp [switch_run, hr, hc, PyResult.state]

/-- C3 witness: the amended cursor bound at the concrete idle state
`c8idle` (run of length 3, cursor 0), with the seek index instantiated
at 9 and the switch name at `"A"`. -/
theorem C3_cursor_bound_witness :
    (tick c8idle).current_idx ≤ runABC.traj.length
    ∧ (tick c8idle).active = some runABC
    ∧ (seek c8idle 9).state.current_idx ≤ runABC.traj.length
    ∧ (restart c8idle).state.current_idx = 0
    ∧ (toggle c8idle).current_idx = c8idle.current_idx
    ∧ ((switch_run c8idle "A").state.current_idx = 0
        ∨ (switch_run c8idle "A").state.current_idx = c8idle.current_idx) := by
  have h := C3_cursor_bound c8idle runABC (by decide) (by decide)
  exact ⟨h.1, h.2.1, h.2.2.1 9, h.2.2.2.1, h.2.2.2.2.1, h.2.2.2.2.2 "A"⟩

/-- C4 counterexample: adding a run with N = 0 to the empty store
auto-activates it and the activation raises a Python `IndexError` at
`traj[0]` — after `dt` was already set to the default and the cursor to
0 — contradicting the claim that no operation aborts for N < 2. -/
theorem C4_counterexample :
    initState.runs = []
    ∧ (add_run initState "A" runEmpty).raised = true
    ∧ (add_run initState "A" runEmpty).state.active = some runEmpty
    ∧ (add_run initState "A" runEmpty).state.current_idx = 0
    ∧ (add_run initState "A" runEmpty).state.dt = 1/100 := by
  refine ⟨by decide, by decide, by decide, by decide, rfl⟩

/-- C4 (amended): activating a run with exactly one sample (more
generally, at most one timestamp and a nonempty trajectory) degrades
gracefully — `dt` falls back to the default `0.01` and nothing raises —
and `seek` or export (`save`) with no active run skip the operation; but
activating a run with N = 0 raises an `IndexError` instead of degrading. -/
theorem C4_degrade (s : VizState) (name : String) (r : Run) (k : Int)
    (hr : lookupRun s.runs name = some r) (h1 : r.times.length ≤ 1)
    (ht : r.traj ≠ []) (hs : s.active = none) :
    (switch_run s name).raised = false
    ∧ (switch_run s name).state.dt = 1/100
    ∧ seek s k = .ok s
    ∧ save s = none := by
  rcases hc : r.traj with _ | ⟨c, rest⟩
  · exact absurd hc ht
  · refine ⟨?_, ?_, ?_, ?_⟩
    · simp [switch_run, hr, hc, PyResult.raised]
    · simp only [switch_run, hr, hc, PyResult.state]
      show (if r.times.length > 1 then r.times[1]! - r.times[0]! else 1/100) = 1/100
      rw [if_neg (by omega)]
    · simp [seek, hs]
    · simp [save, hs]

/-- C4 witness: the single-sample run stored in `oneStore` activates
with the default `dt` and no exception, and seek/export on the inactive
`oneStore` skip. -/
theorem C4_degrade_witness :
    (switch_run oneStore "B").raised = false
    ∧ (switch_run oneStore "B").state.dt = 1/100
    ∧ seek oneStore 9 = .ok oneStore
    ∧ save oneStore = none :=
  C4_degrade oneStore "B" runOne 9 (by decide) (by decide) (by decide) (by decide)

/-- C6 counterexample: `c6pre` already stores one run (so "became
non-empty" fired in the past) and sits at cursor 1; calling `add_run`
with the same name `"A"` replaces the sole run and *re-fires* the
activation — the new run becomes active, the cursor resets to 0 and the
sample-0 pose and plot directives are emitted again. -/
theorem C6_counterexample :
    c6pre.runs = [("A", runABC)]
    ∧ c6pre.current_idx = 1
    ∧ (add_run c6pre "A" runTwo).raised = false
    ∧ (add_run c6pre "A" runTwo).state.active = some runTwo
    ∧ (add_run c6pre "A" runTwo).state.current_idx = 0
    ∧ (add_run c6pre "A" runTwo).state.emitted = [Event.pose v0, Event.plots "A"] := by
  decide

/-- C6 (amended): the activation fires on every `add_run` after which the
store holds exactly one run — the first run ever added, and also any call
replacing the sole existing run under the same name — and does not fire
when the store afterwards holds two or more runs. -/
theorem C6_activation (s : VizState) (name : String) (r : Run) :
    (s.runs = [] → r.traj ≠ [] →
      (add_run s name r).raised = false
      ∧ (add_run s name r).state.active = some r
      ∧ (add_run s name r).state.current_idx = 0)
    ∧ (2 ≤ (insertRun s.runs name r).length →
      add_run s name r = .ok { s with runs := insertRun s.runs name r })
    ∧ (∀ rOld : Run, s.runs = [(name, rOld)] → r.traj ≠ [] →
      (add_run s name r).state.active = some r
      ∧ (add_run s name r).state.current_idx = 0) := by
  refine ⟨?_, ?_, ?_⟩
  · intro h0 ht
    rcases hc : r.traj with _ | ⟨c, rest⟩
    · exact absurd hc ht
    · simp [add_run, insertRun, h0, switch_run, lookupRun, hc,
        PyResult.raised, PyResult.state]
  · intro h2
    simp only [add_run]
    rw [if_neg (by omega)]
  · intro rOld h1 ht
    rcases hc : r.traj with _ | ⟨c, rest⟩
    · exact absurd hc ht
    · simp [add_run, insertRun, h1, switch_run, lookupRun, hc, PyResult.state]

/-- C6 witness: the first-ever `add_run` on the empty initial state
activates the run; adding a second run under a fresh name to `c6pre`
does not; replacing the sole run of `c6pre` activates again. -/
theorem C6_activation_witness :
    ((add_run initState "Z" runTwo).raised = false
      ∧ (add_run initState "Z" runTwo).state.active = some runTwo
      ∧ (add_run initState "Z" runTwo).state.current_idx = 0)
    ∧ (add_run c6pre "B" runTwo = .ok { c6pre with runs := insertRun c6pre.runs "B" runTwo })
    ∧ ((add_run c6pre "A" runTwo).state.active = some runTwo
      ∧ (add_run c6pre "A" runTwo).state.current_idx = 0) := by
  refine ⟨(C6_activation initState "Z" runTwo).1 (by decide) (by decide),
    (C6_activation c6pre "B" runTwo).2.1 (by decide),
    (C6_activation c6pre "A" runTwo).2.2 runABC (by decide) (by decide)⟩

/-- C8 counterexample: `c8state` is idle with an active run of length
N = 0; `seek 5` assigns the clamped cursor 0 but then raises an
`IndexError` instead of emitting a pose directive, so the claim fails
for N = 0. -/
theorem C8_counterexample :
    c8state.active = some runEmpty
    ∧ c8state.is_playing = false
    ∧ runEmpty.traj.length = 0
    ∧ (seek c8state 5).raised = true
    ∧ (seek c8state 5).state.current_idx = 0
    ∧ (seek c8state 5).state.emitted = [] := by decide

/-- C8 (amended): for every active run of length N ≥ 1 and every
requested index k, `seek k` issued while not Playing succeeds, sets the
cursor to `max(0, min(k, N-1))` and emits the pose directive for that
clamped index (for N = 0 the cursor is still assigned 0 but the pose
lookup raises). -/
theorem C8_seek_clamps (s : VizState) (r : Run) (k : Int)
    (ha : s.active = some r) (hp : s.is_playing = false) (h1 : 1 ≤ r.traj.length) :
    (seek s k).raised = false
    ∧ clampIdx k r.traj.length = max 0 (min k ((r.traj.length : Int) - 1))
    ∧ (seek s k).state.current_idx = (clampIdx k r.traj.length).toNat
    ∧ (seek s k).state.emitted = s.emitted ++
        [Event.pose (r.traj.get
          ⟨(clampIdx k r.traj.length).toNat, clampIdx_lt k r.traj.length h1⟩)] := by
  rw [seek_idle s r k ha hp h1]
  exact ⟨rfl, rfl, rfl, rfl⟩

/-- C8 witness: seeking index 7 on the idle three-sample state `c8idle`
clamps to 2 and emits the pose of sample 2. -/
theorem C8_seek_clamps_witness :
    (seek c8idle 7).raised = false
    ∧ clampIdx 7 runABC.traj.length = max 0 (min 7 ((runABC.traj.length : Int) - 1))
    ∧ (seek c8idle 7).state.current_idx = (clampIdx 7 runABC.traj.length).toNat
    ∧ (seek c8idle 7).state.emitted = c8idle.emitted ++
        [Event.pose (runABC.traj.get
          ⟨(clampIdx 7 runABC.traj.length).toNat, clampIdx_lt 7 runABC.traj.length (by decide)⟩)] :=
  C8_seek_clamps c8idle runABC 7 (by decide) (by decide) (by decide)
